import Mathlib

/-!
# Verification of the react-simplified hook/render engine

Shallow embedding of `src/react/init.js`, `src/react/render.js` and
`src/react/utils.js` from the `stavkamil/react-simplified` repository.

Modelling conventions:
* JavaScript primitive values are `Prim`; `NaN` and `-0` are separate
  constructors so that structural equality on `Prim` coincides with
  JavaScript's same-value equality `Object.is` on primitives, while
  strict equality `===` is a separate function.
* A slot of the shared `hooks` array holds a `JSV`: either a primitive
  or an array (a stored dependency list), the latter tagged with a
  reference identifier because `Object.is` on arrays is reference
  equality.  An index that was never written reads as `undefined`,
  exactly as in a JavaScript array.
* The source's in-place updates (`hooks[currIndex] = newVal`,
  `index = 0`, `comp.props.children[i] = ...`) are modelled by explicit
  state passing: each operation returns the post-state of the data it
  mutates.
* JavaScript exceptions (property access on `null`/`undefined`) are
  modelled with `Except Unit`.
-/

/-- JavaScript primitive values.  `nan` and `negZero` are separate from
`num` so that structural equality is exactly same-value equality
(`Object.is`) on primitives: `Object.is(NaN, NaN)` is true and
`Object.is(0, -0)` is false. -/
inductive Prim where
  | undefined
  | null
  | bool (b : Bool)
  | nan
  | negZero
  | num (i : Int)
  | str (s : String)
  deriving DecidableEq, Repr

/-- A JavaScript value as stored in a hook slot: a primitive, or an
array (used by the engine for dependency lists).  Arrays carry a
reference identifier, since `Object.is` on arrays compares references. -/
inductive JSV where
  | prim (p : Prim)
  | arr (ref : Nat) (elems : List Prim)
  deriving DecidableEq, Repr

/-- `Object.is`: same-value equality.  On primitives this is structural
equality of `Prim` (by construction of `Prim`); on arrays it is
reference equality; a primitive is never the same value as an array. -/
def sameValue : JSV → JSV → Bool
  | .prim a, .prim b => a == b
  | .arr r _, .arr r' _ => r == r'
  | _, _ => false

/-- JavaScript truthiness of a primitive. -/
def jsTruthyPrim : Prim → Bool
  | .undefined => false
  | .null => false
  | .bool b => b
  | .nan => false
  | .negZero => false
  | .num i => i != 0
  | .str s => s != ""

/-- JavaScript truthiness of a value (`if (oldDeps)`); arrays are
always truthy. -/
def jsTruthy : JSV → Bool
  | .prim p => jsTruthyPrim p
  | .arr _ _ => true

/-- Whether a value is nullish (`null` or `undefined`), as tested by
the `??` operator in `hooks[index] ?? initialValue`. -/
def isNullish : JSV → Bool
  | .prim .undefined => true
  | .prim .null => true
  | _ => false

/-- `typeof` for a primitive value (note that `typeof` of `null` is the string `object`). -/
def jsTypeofPrim : Prim → String
  | .undefined => "undefined"
  | .null => "object"
  | .bool _ => "boolean"
  | .nan => "number"
  | .negZero => "number"
  | .num _ => "number"
  | .str _ => "string"

/-- The hook store of `init()`: the shared `hooks` array and the shared
`index` cursor. -/
structure HS where
  hooks : List JSV
  index : Nat
  deriving DecidableEq, Repr

/-- `hooks[i]`: reading an index that was never written yields
`undefined`, as in a JavaScript array. -/
def slotAt (hooks : List JSV) (i : Nat) : JSV :=
  hooks.getD i (.prim .undefined)

/-- `hooks[i] = v`: writing past the end of a JavaScript array extends
it, filling the gap with holes that read as `undefined`. -/
def writeSlot : List JSV → Nat → JSV → List JSV
  | _ :: t, 0, v => v :: t
  | [], 0, v => [v]
  | h :: t, n + 1, v => h :: writeSlot t n v
  | [], n + 1, v => .prim .undefined :: writeSlot [] n v

/-- `useState` from `src/react/init.js` (lines 45–60), reading part:
`const state = hooks[index] ?? initialValue; const currIndex = index;`
then `index++`.  Returns the state value, the captured slot index
`currIndex`, and the post-state of the hook store.  (The setter closure
is modelled separately by `setStateFull`.) -/
def useState (initialValue : JSV) (st : HS) : JSV × Nat × HS :=
  let state := if isNullish (slotAt st.hooks st.index) then initialValue
               else slotAt st.hooks st.index
  let currIndex := st.index
  (state, currIndex, ⟨st.hooks, st.index + 1⟩)

/-- `oldDeps[i]` for an arbitrary JavaScript value `oldDeps`: indexing
an array reads the element (`undefined` out of range); indexing a
string reads a one-character string; indexing any other primitive
yields `undefined`. -/
def oldAt : JSV → Nat → JSV
  | .arr _ elems, i => .prim (elems.getD i .undefined)
  | .prim (.str s), i =>
      if i < s.length then .prim (.str (String.mk [s.toList.getD i 'a']))
      else .prim .undefined
  | _, _ => .prim .undefined

/-- `useEffect` from `src/react/init.js` (lines 85–99):
`shouldRunEffect` starts `true`; if the slot at the cursor is truthy it
becomes `depArr.some((dep, i) => !Object.is(dep, oldDeps[i]))`; the
callback runs iff `shouldRunEffect`; the slot is then overwritten with
the new dependency array and the cursor advances.  Returns whether the
callback ran, and the post-state. -/
def useEffect (depArr : List Prim) (st : HS) : Bool × HS :=
  let oldDeps := slotAt st.hooks st.index
  let shouldRunEffect :=
    if jsTruthy oldDeps then
      (List.range depArr.length).any
        (fun i => ! sameValue (.prim (depArr.getD i .undefined)) (oldAt oldDeps i))
    else true
  (shouldRunEffect, ⟨writeSlot st.hooks st.index (.arr 0 depArr), st.index + 1⟩)

/-- A component body as a sequence of hook calls: a deep embedding of
the hook calls a component function performs, in order, where later
calls may depend on the values earlier hooks returned.  `done` carries
the value the component renders. -/
inductive CompProg where
  | done (out : JSV)
  | state (initialValue : JSV) (k : JSV → Nat → CompProg)
  | effect (eid : Nat) (deps : List Prim) (k : CompProg)

/-- Result of running a component against the hook store: the
post-state, the rendered output, and the identifiers of the effect
callbacks that ran. -/
structure RunResult where
  st : HS
  out : JSV
  runs : List Nat
  deriving DecidableEq, Repr

/-- Run a component's hook calls in order against the hook store
(this is what invoking the component function inside `reconcile`
does to the store). -/
def runComp : CompProg → HS → RunResult
  | .done out, st => ⟨st, out, []⟩
  | .state init k, st =>
      let r := useState init st
      runComp (k r.1 r.2.1) r.2.2
  | .effect eid deps k, st =>
      let r := useEffect deps st
      let rest := runComp k r.2
      ⟨rest.st, rest.out, if r.1 then eid :: rest.runs else rest.runs⟩

/-- Result of invoking a state setter: whether a re-render was
triggered, the post-state of the hook store, and the effects that ran
during the re-render. -/
structure SetResult where
  rendered : Bool
  st : HS
  runs : List Nat
  deriving DecidableEq, Repr

/-- The `setState` closure of `src/react/init.js` (lines 49–56)
together with the re-render it triggers:
`hasChanged = !Object.is(hooks[currIndex], newVal)`; if changed it
writes the captured slot, resets the cursor to zero and calls
`render(hooks)()`, which re-invokes the remembered component (here
`comp`); if unchanged it does nothing. -/
def setStateFull (comp : CompProg) (currIndex : Nat) (newVal : JSV)
    (st : HS) : SetResult :=
  let hasChanged := ! sameValue (slotAt st.hooks currIndex) newVal
  if hasChanged then
    let r := runComp comp ⟨writeSlot st.hooks currIndex newVal, 0⟩
    ⟨true, r.st, r.runs⟩
  else ⟨false, st, []⟩

/-- The body of `render` from `src/react/render.js` (lines 32–46), as
it acts on the hook store and the mount point: it removes every child
of the root, reconciles the component (which invokes the component
function, i.e. runs its hook calls), remembers `hooks`/`component`/
`root` for later setter-triggered renders, and appends the created DOM
under the root.  The remembered context and the root contents carry no
hook data; the only hook-store activity is the component's own hook
calls. -/
def renderBody (comp : CompProg) (st : HS) (_rootContents : List JSV) :
    HS × List Nat × List JSV :=
  let cleared : List JSV := []
  let r := runComp comp st
  (r.st, r.runs, cleared ++ [r.out])

/-- The counter component of the spec scenario: one state hook
initialized to `0`, rendering its state value. -/
def counterProg : CompProg := .state (.prim (.num 0)) (fun v _ => .done v)

/-- Three setter calls with values `1`, `1`, `2` after the initial
render of the counter, counting how many triggered a re-render, and
the final hook store. -/
def counterSim : Nat × HS :=
  let st0 := (runComp counterProg ⟨[], 0⟩).st
  let r1 := setStateFull counterProg 0 (.prim (.num 1)) st0
  let r2 := setStateFull counterProg 0 (.prim (.num 1)) r1.st
  let r3 := setStateFull counterProg 0 (.prim (.num 2)) r2.st
  ((cond r1.rendered 1 0) + (cond r2.rendered 1 0) + (cond r3.rendered 1 0),
   r3.st)

/-- The component of the spec scenario for C7: one state hook (the
"unrelated" state) and one effect hook with an empty dependency
list. -/
def effProg : CompProg :=
  .state (.prim (.num 0)) (fun _ _ => .effect 0 [] (.done (.prim .undefined)))

/-- The value held by the state slot of `effProg` after `n` setter
calls: `undefined` before any write (the state hook never writes its
slot on read), then the last value set. -/
def stv : Nat → JSV
  | 0 => .prim .undefined
  | n + 1 => .prim (.num (Int.ofNat (n + 1)))

/-- `n` consecutive re-renders of `effProg` after its initial render,
each triggered by an unrelated state change (setter call with the
fresh value `n`): returns the hook store, the total number of effect
callback runs, and the total number of renders. -/
def effSim : Nat → HS × Nat × Nat
  | 0 =>
      let r := runComp effProg ⟨[], 0⟩
      (r.st, r.runs.length, 1)
  | n + 1 =>
      let p := effSim n
      let r := setStateFull effProg 0 (.prim (.num (Int.ofNat (n + 1)))) p.1
      (r.st, p.2.1 + r.runs.length, p.2.2 + cond r.rendered 1 0)

/-- A property value: a primitive, or a function value (an event
handler), the latter carrying a reference identifier because `!==`
compares functions by reference. -/
inductive PVal where
  | prim (p : Prim)
  | handler (ref : Nat)
  deriving DecidableEq, Repr

/-- A property set: ordered key–value pairs.  JavaScript object keys
(string keys) enumerate in insertion order, which the list order
models.  The reserved `children` entry of a node's props object is
modelled as the separate `children` field of `VTree`. -/
abbrev Props := List (String × PVal)

/-- A virtual tree value as handled by `reconcile` and `createDom`:
a host-element node (string `type`), a component node (function
`type`, modelled by the virtual node the function returns when
invoked), an array of nodes (a fragment), `null`, or `undefined`. -/
inductive VTree where
  | node (tag : String) (props : Props) (children : List VTree)
  | comp (body : VTree) (props : Props) (children : List VTree)
  | frag (elems : List VTree)
  | nullc
  | undefc

/-- `isEvent` from `src/react/utils.js`: a key naming an event
handler starts with `on`. -/
def isEvent (key : String) : Bool := key.startsWith "on"

/-- `isProperty` from `src/react/utils.js`: a plain property is any
key other than `children` that is not an event key. -/
def isProperty (key : String) : Bool := key != "children" && ! isEvent key

/-- `key in props`. -/
def containsKey (props : Props) (key : String) : Bool :=
  props.any (fun kv => kv.1 == key)

/-- `props[key]`: an absent key reads as `undefined`. -/
def getProp (props : Props) (key : String) : PVal :=
  ((props.find? (fun kv => kv.1 == key)).map (fun kv => kv.2)).getD
    (.prim .undefined)

/-- Strict equality `===` on primitives: like same-value equality
except that `NaN` is not equal to itself and `-0` equals `+0`. -/
def strictEqP : Prim → Prim → Bool
  | .nan, _ => false
  | _, .nan => false
  | .negZero, .num i => i == 0
  | .num i, .negZero => i == 0
  | a, b => a == b

/-- Strict equality `===` on property values; functions compare by
reference. -/
def strictEq : PVal → PVal → Bool
  | .prim a, .prim b => strictEqP a b
  | .handler r, .handler r' => r == r'
  | _, _ => false

/-- `isNew` from `src/react/utils.js`:
`(prev, next) => (key) => prev[key] !== next[key]`. -/
def isNew (prev next : Props) (key : String) : Bool :=
  ! strictEq (getProp prev key) (getProp next key)

/-- `isGone` from `src/react/utils.js`:
`(_, next) => (key) => !(key in next)`. -/
def isGone (_prev next : Props) (key : String) : Bool :=
  ! containsKey next key

/-- The `type` argument of `createElement`: a host tag string or a
component function, the latter modelled by the virtual node it
returns. -/
inductive CEType where
  | tag (s : String)
  | fn (body : VTree)

/-- A child argument of `createElement`: an object (a virtual node or
an array) or a primitive value. -/
inductive CEArg where
  | obj (t : VTree)
  | raw (p : Prim)

/-- The text-node wrapper built by `createElement` for a non-object
child: a virtual node of type `TEXT_NODE` whose `nodeValue` property
carries the raw child value and whose children list is empty. -/
def textNode (p : Prim) : VTree :=
  .node "TEXT_NODE" [("nodeValue", .prim p)] []

/-- Child normalization in `createElement`:
a child whose `typeof` is `object` is kept as-is, any other
child becomes a text node.  Note that `typeof` of `null` is `object`,
so a `null` child is kept unwrapped. -/
def normalizeChild : CEArg → VTree
  | .obj t => t
  | .raw p => if jsTypeofPrim p == "object" then .nullc else textNode p

/-- `createElement` from `src/react/init.js` (lines 125–142): returns
a node of the given `type` whose props are the given props and whose
`children` entry is the normalized children array. -/
def createElement : CEType → Props → List CEArg → VTree
  | .tag s, props, children => .node s props (children.map normalizeChild)
  | .fn b, props, children => .comp b props (children.map normalizeChild)

/-- Accessor for the normalized children array of a built node. -/
def childrenOf : VTree → List VTree
  | .node _ _ ch => ch
  | .comp _ _ ch => ch
  | _ => []

mutual

/-- `reconcile` from `src/react/render.js` (lines 73–91).
`const type = component.type` throws on `null`/`undefined` input
(modelled as `Except.error`); an array input maps reconciliation over
its elements; a string-typed node is passed through as `comp`;
otherwise the component function is invoked (`type()`, no arguments),
yielding its body.  Then every child of `comp` whose `type` is not a
string is overwritten in place with its reconciled form, and `comp`
is returned.  The returned value is the post-state of `comp`, which
for a string-typed input is the very input object. -/
def reconcile : VTree → Except Unit VTree
  | .nullc => .error ()
  | .undefc => .error ()
  | .frag l => do
      pure (.frag (← reconcileList l))
  | .node s props ch => do
      pure (.node s props (← reconcileChildren ch))
  | .comp body _ _ => reconcileBody body

/-- The treatment of `comp = type()` in `reconcile`: if it has props
and children, its non-string-typed children are reconciled in place;
a `null` or array result has no props and is returned untouched. -/
def reconcileBody : VTree → Except Unit VTree
  | .node s props ch => do
      pure (.node s props (← reconcileChildren ch))
  | .comp b props ch => do
      pure (.comp b props (← reconcileChildren ch))
  | t => pure t

/-- Reconciliation mapped over the elements of an array component. -/
def reconcileList : List VTree → Except Unit (List VTree)
  | [] => pure []
  | t :: ts => do
      pure ((← reconcile t) :: (← reconcileList ts))

/-- The `comp.props.children.forEach` loop of `reconcile`. -/
def reconcileChildren : List VTree → Except Unit (List VTree)
  | [] => pure []
  | c :: cs => do
      pure ((← reconChild c) :: (← reconcileChildren cs))

/-- One child slot of the loop: `typeof child.type !== ` string
guards the recursive call; reading `child.type` throws on a `null` or
`undefined` child, and `reconcile` itself throws on those, so both
are uniformly `Except.error`. -/
def reconChild : VTree → Except Unit VTree
  | .node s p ch => pure (.node s p ch)
  | c => reconcile c
end

/-- An operation performed on the display surface by `updateDom`,
listed in the order the source emits them. -/
inductive DomOp where
  | removeListener (eventType : String) (handlerV : PVal)
  | clearProp (name : String)
  | setProp (name : String) (value : PVal)
  | addListener (eventType : String) (handlerV : PVal)
  deriving DecidableEq, Repr

/-- The event type derived from a property name:
`name.toLowerCase().substring(2)`. -/
def eventTypeOf (name : String) : String := (name.toLower).drop 2

/-- `Object.keys`, which enumerates string keys in insertion order. -/
def propKeys (props : Props) : List String := props.map (fun kv => kv.1)

/-- `updateDom` from `src/react/render.js` (lines 162–192) as the
ordered trace of display-surface operations it performs: four
`Object.keys(...).filter(...).forEach(...)` passes, in source order —
remove stale listeners, clear gone properties, set new properties,
attach new listeners. -/
def updateDomOps (prevProps nextProps : Props) : List DomOp :=
  ((((propKeys prevProps).filter isEvent).filter
      (fun key => !containsKey nextProps key ||
        isNew prevProps nextProps key)).map
    (fun name => .removeListener (eventTypeOf name) (getProp prevProps name)))
  ++ ((((propKeys prevProps).filter isProperty).filter
        (isGone prevProps nextProps)).map (fun name => .clearProp name))
  ++ ((((propKeys nextProps).filter isProperty).filter
        (isNew prevProps nextProps)).map
      (fun name => .setProp name (getProp nextProps name)))
  ++ ((((propKeys nextProps).filter isEvent).filter
        (isNew prevProps nextProps)).map
      (fun name => .addListener (eventTypeOf name) (getProp nextProps name)))

/-- Phase 1 as the spec words it: remove event listeners present in
the previous property set but absent, or changed, in the next set. -/
def specPhaseRemoveListeners (prev next : Props) : List DomOp :=
  ((propKeys prev).filter (fun k => isEvent k &&
      (!containsKey next k ||
        !strictEq (getProp prev k) (getProp next k)))).map
    (fun name => .removeListener (eventTypeOf name) (getProp prev name))

/-- Phase 2 as the spec words it: clear plain properties present in
the previous set but absent from the next set. -/
def specPhaseClearProps (prev next : Props) : List DomOp :=
  ((propKeys prev).filter (fun k => isProperty k &&
      !containsKey next k)).map (fun name => .clearProp name)

/-- Phase 3 as the spec words it: apply plain properties of the next
set that are new or changed versus the previous set. -/
def specPhaseSetProps (prev next : Props) : List DomOp :=
  ((propKeys next).filter (fun k => isProperty k &&
      !strictEq (getProp prev k) (getProp next k))).map
    (fun name => .setProp name (getProp next name))

/-- Phase 4 as the spec words it: attach event listeners of the next
set that are new or changed versus the previous set. -/
def specPhaseAddListeners (prev next : Props) : List DomOp :=
  ((propKeys next).filter (fun k => isEvent k &&
      !strictEq (getProp prev k) (getProp next k))).map
    (fun name => .addListener (eventTypeOf name) (getProp next name))

/-- A display-surface node produced by `createDom`: a host element
with its tag, the property/listener operations applied to it, and its
appended children; or a text node with its applied operations. -/
inductive DomTree where
  | delem (tag : String) (ops : List DomOp) (children : List DomTree)
  | dtext (ops : List DomOp)

mutual

/-- `createDom` from `src/react/render.js` (lines 110–138).
`fiber === null` returns an empty `div`; for `undefined` the guard
does not fire and the subsequent `typeof fiber.type` access throws
(modelled as `Except.error`).  A function-typed fiber is invoked and
its result materialized; an array fiber falls through to
`document.createElement(fiber?.type)` with an `undefined` type, which
the DOM coerces to the tag string `undefined`.  Otherwise a
`TEXT_NODE` fiber makes a text node and any other tag a host element,
`updateDom(dom, ..., props)` is applied against an empty previous
property set, and the children are materialized and appended
(`appendChild` on a text node throws, so a `TEXT_NODE` fiber with
children is an error). -/
def createDom : VTree → Except Unit DomTree
  | .nullc => pure (.delem "div" [] [])
  | .undefc => .error ()
  | .comp body _ _ => createDom body
  | .frag _ => pure (.delem "undefined" (updateDomOps [] []) [])
  | .node s props ch =>
      if s == "TEXT_NODE" then do
        let cds ← createDomChildren ch
        match cds with
        | [] => pure (.dtext (updateDomOps [] props))
        | _ :: _ => .error ()
      else do
        pure (.delem s (updateDomOps [] props) (← createDomChildren ch))

/-- The `props.children.forEach` loop of `createDom`: an array child
has its elements materialized and appended as siblings (one level of
flattening); any other child is materialized directly. -/
def createDomChildren : List VTree → Except Unit (List DomTree)
  | [] => pure []
  | .frag l :: rest => do
      pure ((← createDomFlat l) ++ (← createDomChildren rest))
  | c :: rest => do
      pure ((← createDom c) :: (← createDomChildren rest))

/-- Materialization mapped over the elements of an array child. -/
def createDomFlat : List VTree → Except Unit (List DomTree)
  | [] => pure []
  | c :: rest => do
      pure ((← createDom c) :: (← createDomFlat rest))
end

theorem slotAt_writeSlot (hooks : List JSV) (i : Nat) (v : JSV) :
    slotAt (writeSlot hooks i v) i = v := by
  induction hooks generalizing i with
  | nil =>
    induction i with
    | zero => rfl
    | succ n ih => simpa [writeSlot, slotAt, List.getD] using ih
  | cons h t ih =>
    cases i with
    | zero => rfl
    | succ n => simpa [writeSlot, slotAt, List.getD] using ih n

/-- C3: calling the setter with a value same-value-equal to the value
currently stored in the setter's slot is a no-op — the slot is not
written, the cursor is not reset and no re-render is triggered — and
the counter scenario (one state hook initialized to `0`, setter calls
`1`, `1`, `2`) re-renders exactly twice. -/
theorem C3_setter_same_value_noop (comp : CompProg) (currIndex : Nat)
    (v : JSV) (st : HS)
    (h : sameValue (slotAt st.hooks currIndex) v = true) :
    setStateFull comp currIndex v st = ⟨false, st, []⟩ ∧
    counterSim.1 = 2 := by
  refine ⟨?_, by decide⟩
  simp [setStateFull, h]

/-- Witness for C3 at a concrete no-op setter call. -/
theorem C3_setter_same_value_noop_witness :
    setStateFull counterProg 0 (.prim (.num 1)) ⟨[.prim (.num 1)], 1⟩ =
      ⟨false, ⟨[.prim (.num 1)], 1⟩, []⟩ ∧
    counterSim.1 = 2 :=
  C3_setter_same_value_noop counterProg 0 (.prim (.num 1))
    ⟨[.prim (.num 1)], 1⟩ (by decide)

/-- C4 counterexample: after the first render of the counter (cursor
at `1`, slot `0` never written), calling the setter with `null`
triggers a re-render and writes `null` into slot `0`, but the state
hook read performed by that re-render returns the initial value `0`,
not the new value `null`: `hooks[index] ?? initialValue` falls back to
`initialValue` on a stored `null`.  This refutes the claim that after
a changed-value setter call the state hook returns the new value. -/
theorem C4_counterexample_null_not_read_back :
    setStateFull counterProg 0 (.prim .null) ⟨[], 1⟩ =
      ⟨true, ⟨[.prim .null], 1⟩, []⟩ ∧
    (useState (.prim (.num 0)) ⟨[.prim .null], 0⟩).1 = .prim (.num 0) ∧
    (JSV.prim (.num 0)) ≠ .prim .null := by
  refine ⟨by decide, by decide, by decide⟩

/-- C4 (amended): for every value `newVal` not same-value-equal to the
stored value of the captured slot, and not `null`/`undefined`,
invoking the setter writes `newVal` into the captured slot (index `0`
here, regardless of the current cursor `st.index`), resets the cursor
to zero, and synchronously performs exactly one re-render of the
remembered component, whose state hook at that position observes
`newVal` (the continuation `k` is applied to `newVal`). -/
theorem C4_setter_changed_rerenders (init : JSV)
    (k : JSV → Nat → CompProg) (newVal : JSV) (st : HS)
    (h1 : sameValue (slotAt st.hooks 0) newVal = false)
    (h2 : isNullish newVal = false) :
    setStateFull (.state init k) 0 newVal st =
      ⟨true, (runComp (k newVal 0) ⟨writeSlot st.hooks 0 newVal, 1⟩).st,
        (runComp (k newVal 0) ⟨writeSlot st.hooks 0 newVal, 1⟩).runs⟩ := by
  simp [setStateFull, h1, runComp, useState, slotAt_writeSlot, h2]

/-- Witness for C4 (amended): a setter call with `5` from cursor
position `1`. -/
theorem C4_setter_changed_rerenders_witness :
    setStateFull (.state (.prim (.num 0)) (fun v _ => .done v)) 0
        (.prim (.num 5)) ⟨[], 1⟩ =
      ⟨true,
        (runComp ((fun (v : JSV) (_ : Nat) => CompProg.done v)
            (.prim (.num 5)) 0) ⟨writeSlot [] 0 (.prim (.num 5)), 1⟩).st,
        (runComp ((fun (v : JSV) (_ : Nat) => CompProg.done v)
            (.prim (.num 5)) 0)
          ⟨writeSlot [] 0 (.prim (.num 5)), 1⟩).runs⟩ :=
  C4_setter_changed_rerenders (.prim (.num 0)) (fun v _ => .done v)
    (.prim (.num 5)) ⟨[], 1⟩ (by decide) (by decide)

/-- C5 counterexample: a slot previously written with `null` by the
setter does not read back as `null`: the next state hook read returns
the initial value (`7` here), because `hooks[index] ?? initialValue`
treats the stored `null` as absent.  This refutes the claim that a
previously written slot always reads back whatever value was written,
including `null`. -/
theorem C5_counterexample_written_null_reads_initial :
    setStateFull (.state (.prim (.num 7)) (fun v _ => .done v)) 0
        (.prim .null) ⟨[], 1⟩ =
      ⟨true, ⟨[.prim .null], 1⟩, []⟩ ∧
    (useState (.prim (.num 7)) ⟨[.prim .null], 0⟩).1 = .prim (.num 7) ∧
    (JSV.prim (.num 7)) ≠ .prim .null := by
  refine ⟨by decide, by decide, by decide⟩

/-- C5 (amended): the state hook returns the slot value at the cursor
whenever that value is not nullish, and returns the initial value
whenever the slot value is nullish — i.e. when the slot was never
written, or when the written value was `null` or `undefined`. -/
theorem C5_useState_read (init : JSV) (st : HS) :
    (isNullish (slotAt st.hooks st.index) = false →
      (useState init st).1 = slotAt st.hooks st.index) ∧
    (isNullish (slotAt st.hooks st.index) = true →
      (useState init st).1 = init) := by
  constructor <;> intro h <;> simp [useState, h]

/-- Witness for C5 (amended) at a non-nullish slot. -/
theorem C5_useState_read_witness :
    (useState (.prim (.num 3)) ⟨[.prim (.bool true)], 0⟩).1 =
      slotAt [.prim (.bool true)] 0 :=
  (C5_useState_read (.prim (.num 3)) ⟨[.prim (.bool true)], 0⟩).1
    (by decide)

/-- C1 counterexample: dependency lists `d0 = [1, 2]` on the first
render and `d1 = [1]` on the second.  The lengths differ, so the claim
says the callback must run on render 2; but the source only iterates
over the entries of the new list (`depArr.some`), all of which match,
so the callback does not run. -/
theorem C1_counterexample_shorter_deps :
    (useEffect [.num 1, .num 2] ⟨[], 0⟩).1 = true ∧
    (useEffect [.num 1]
        ⟨(useEffect [.num 1, .num 2] ⟨[], 0⟩).2.hooks, 0⟩).1 = false ∧
    [Prim.num 1].length ≠ [Prim.num 1, Prim.num 2].length := by
  refine ⟨by decide, by decide, by decide⟩

/-- C1 (amended): the effect callback runs on a render where the slot
at the cursor holds no previous dependency list (a falsy value), and
on a later render with stored list `d0` and new list `d1` it runs iff
some position `i < d1.length` holds an entry of `d1` that is not
same-value-equal to the corresponding entry of `d0` (`undefined` when
`i` is beyond `d0`); a shorter `d1` whose entries all match does not
trigger the callback, so a mere length difference is not sufficient. -/
theorem C1_effect_dependency_gating :
    (∀ (d : List Prim) (st : HS),
      jsTruthy (slotAt st.hooks st.index) = false →
      (useEffect d st).1 = true) ∧
    (∀ (d0 d1 : List Prim) (r : Nat) (st : HS),
      slotAt st.hooks st.index = .arr r d0 →
      ((useEffect d1 st).1 = true ↔
        ∃ i, i < d1.length ∧
          sameValue (.prim (d1.getD i .undefined))
            (.prim (d0.getD i .undefined)) = false)) := by
  constructor
  · intro d st h
    simp [useEffect, h]
  · intro d0 d1 r st h
    simp [useEffect, h, jsTruthy, oldAt, List.any_eq_true, List.mem_range]

/-- Witness for C1 (amended): a fresh slot runs the effect, and with
`d0 = [1]`, `d1 = [3]` the run condition is the positional
difference. -/
theorem C1_effect_dependency_gating_witness :
    (useEffect [Prim.num 1] ⟨[], 0⟩).1 = true ∧
    ((useEffect [Prim.num 3] ⟨[.arr 0 [.num 1]], 0⟩).1 = true ↔
      ∃ i, i < [Prim.num 3].length ∧
        sameValue (.prim ([Prim.num 3].getD i .undefined))
          (.prim ([Prim.num 1].getD i .undefined)) = false) :=
  ⟨C1_effect_dependency_gating.1 [Prim.num 1] ⟨[], 0⟩ (by decide),
   C1_effect_dependency_gating.2 [Prim.num 1] [Prim.num 3] 0
     ⟨[.arr 0 [.num 1]], 0⟩ (by decide)⟩

theorem effStep (v w : JSV) (h1 : sameValue v w = false)
    (h2 : isNullish w = false) :
    setStateFull effProg 0 w ⟨[v, .arr 0 []], 2⟩ =
      ⟨true, ⟨[w, .arr 0 []], 2⟩, []⟩ := by
  simp [setStateFull, h1, effProg, runComp, useState, useEffect, slotAt,
    writeSlot, h2, jsTruthy, List.getD]

theorem effSim_closed (n : Nat) :
    effSim n = (⟨[stv n, .arr 0 []], 2⟩, 1, n + 1) := by
  induction n with
  | zero => rfl
  | succ m ih =>
      have hsv : sameValue (stv m) (.prim (.num (Int.ofNat (m + 1)))) = false := by
        cases m with
        | zero => rfl
        | succ k =>
            simp [stv, sameValue]
      have hstep := effStep (stv m) (.prim (.num (Int.ofNat (m + 1)))) hsv rfl
      simp only [effSim, ih, hstep]
      simp [stv]

/-- C7: for a component calling the effect hook with an empty
dependency list at a fixed position, across `n + 1` consecutive
renders (the initial render plus `n` re-renders triggered by unrelated
state changes in the same component), the effect callback runs exactly
once — on the first render and on no later render. -/
theorem C7_empty_deps_runs_once (n : Nat) :
    (effSim n).2.1 = 1 ∧ (effSim n).2.2 = n + 1 := by
  simp [effSim_closed n]

/-- C10 counterexample: an explicit render of a component that calls
the effect hook writes the dependency list into slot `0` and advances
the cursor from `0` to `1`, so an explicit render call does not leave
every hook slot and the cursor unchanged. -/
theorem C10_counterexample_render_touches_store :
    (renderBody (.effect 0 [] (.done (.prim .undefined))) ⟨[], 0⟩ []).1 =
      ⟨[.arr 0 []], 1⟩ ∧
    (⟨[.arr 0 []], 1⟩ : HS) ≠ (⟨[], 0⟩ : HS) := by
  refine ⟨by decide, by decide⟩

/-- C10 (amended): the render entry point performs no hook-store
operations of its own — its entire effect on the hook store is the
component's own hook calls, so rendering a hook-free component leaves
every slot and the cursor unchanged (in particular the cursor is not
reset to zero); the cursor is set to zero only on the setter path,
whose changed-value branch re-renders from cursor zero. -/
theorem C10_render_frame :
    (∀ (comp : CompProg) (st : HS) (roots : List JSV),
      (renderBody comp st roots).1 = (runComp comp st).st) ∧
    (∀ (out : JSV) (st : HS) (roots : List JSV),
      (renderBody (.done out) st roots).1 = st) ∧
    (∀ (comp : CompProg) (currIndex : Nat) (v : JSV) (st : HS),
      sameValue (slotAt st.hooks currIndex) v = false →
      setStateFull comp currIndex v st =
        ⟨true, (runComp comp ⟨writeSlot st.hooks currIndex v, 0⟩).st,
          (runComp comp ⟨writeSlot st.hooks currIndex v, 0⟩).runs⟩) := by
  refine ⟨fun comp st roots => rfl, fun out st roots => rfl, ?_⟩
  intro comp ci v st h
  simp [setStateFull, h]

/-- Witness for C10 (amended): a hook-free render leaves the store and
cursor `3` unchanged, and a changed-value setter call re-renders from
cursor zero. -/
theorem C10_render_frame_witness :
    (renderBody (.done (.prim (.num 1))) ⟨[.prim (.num 4)], 3⟩ []).1 =
      (⟨[.prim (.num 4)], 3⟩ : HS) ∧
    setStateFull (.done (.prim .undefined)) 0 (.prim (.num 2)) ⟨[], 0⟩ =
      ⟨true,
        (runComp (.done (.prim .undefined))
          ⟨writeSlot [] 0 (.prim (.num 2)), 0⟩).st,
        (runComp (.done (.prim .undefined))
          ⟨writeSlot [] 0 (.prim (.num 2)), 0⟩).runs⟩ :=
  ⟨C10_render_frame.2.1 (.prim (.num 1)) ⟨[.prim (.num 4)], 3⟩ [],
   C10_render_frame.2.2 (.done (.prim .undefined)) 0 (.prim (.num 2)) ⟨[], 0⟩
     (by decide)⟩

theorem reconcileChildren_length (cs : List VTree) (cs2 : List VTree)
    (h : reconcileChildren cs = .ok cs2) : cs2.length = cs.length := by
  induction cs generalizing cs2 with
  | nil =>
      simp [reconcileChildren, pure, Except.pure] at h
      simp [← h]
  | cons c cs ih =>
      rw [reconcileChildren] at h
      cases hc : reconChild c with
      | error e => simp [hc, Bind.bind, Except.bind] at h
      | ok c2 =>
          cases hcs : reconcileChildren cs with
          | error e => simp [hc, hcs, Bind.bind, Except.bind] at h
          | ok cs3 =>
              simp [hc, hcs, Bind.bind, Except.bind, pure, Except.pure] at h
              simp [← h, ih cs3 hcs]

theorem reconcileChildren_get_node (cs : List VTree) (cs2 : List VTree)
    (h : reconcileChildren cs = .ok cs2) (i : Nat) (s : String)
    (p : Props) (ch : List VTree) (hi : cs[i]? = some (.node s p ch)) :
    cs2[i]? = some (.node s p ch) := by
  induction cs generalizing cs2 i with
  | nil => simp at hi
  | cons c cs ih =>
      rw [reconcileChildren] at h
      cases hc : reconChild c with
      | error e => simp [hc, Bind.bind, Except.bind] at h
      | ok c2 =>
          cases hcs : reconcileChildren cs with
          | error e => simp [hc, hcs, Bind.bind, Except.bind] at h
          | ok cs3 =>
              simp [hc, hcs, Bind.bind, Except.bind, pure, Except.pure] at h
              cases i with
              | zero =>
                  simp at hi
                  subst hi
                  rw [reconChild] at hc
                  simp [pure, Except.pure] at hc
                  simp [← h, ← hc]
              | succ j =>
                  simp at hi
                  simp [← h, ih cs3 hcs j hi]

/-- C2 counterexample: reconciling a host node with one
component-function child yields a node whose first child entry has
been replaced by that component's rendered form.  In the source,
`reconcile` returns the input object itself for a string-typed node
and overwrites `comp.props.children[i]` in place, so the returned
(post-state) tree differing from the input tree exhibits a mutation
of the existing virtual node: its children entries do not stay
unchanged. -/
theorem C2_counterexample_reconcile_overwrites_child :
    reconcile (.node "div" [] [.comp (.node "p" [] []) [] []]) =
      .ok (.node "div" [] [.node "p" [] []]) ∧
    VTree.node "div" [] [.node "p" [] []] ≠
      .node "div" [] [.comp (.node "p" [] []) [] []] := by
  constructor
  · simp [reconcile, reconcileChildren, reconChild, reconcileBody, pure,
      Except.pure, Bind.bind, Except.bind]
  · simp

/-- C2 (amended): reconciliation of a tag-kind virtual node preserves
its kind and its properties, keeps the number of children, and leaves
every child entry whose kind is a tag unchanged; only children whose
kind is not a tag (component functions and nested arrays) are
overwritten in place with their resolved forms. -/
theorem C2_reconcile_preserves_tag_nodes (s : String) (props : Props)
    (ch : List VTree) (r : VTree)
    (h : reconcile (.node s props ch) = .ok r) :
    ∃ ch2, r = VTree.node s props ch2 ∧ ch2.length = ch.length ∧
      ∀ (i : Nat) (t : String) (p : Props) (c : List VTree),
        ch[i]? = some (VTree.node t p c) →
        ch2[i]? = some (VTree.node t p c) := by
  rw [reconcile] at h
  cases hce : reconcileChildren ch with
  | error e => simp [hce, Bind.bind, Except.bind] at h
  | ok ch2 =>
      simp [hce, Bind.bind, Except.bind, pure, Except.pure] at h
      refine ⟨ch2, h.symm, reconcileChildren_length ch ch2 hce, ?_⟩
      intro i t p c hi
      exact reconcileChildren_get_node ch ch2 hce i t p c hi

/-- Witness for C2 (amended) on a concrete tag node with one tag
child. -/
theorem C2_reconcile_preserves_tag_nodes_witness :
    ∃ ch2, VTree.node "div" [] [VTree.node "span" [] []] =
        VTree.node "div" [] ch2 ∧
      ch2.length = [VTree.node "span" [] []].length ∧
      ∀ (i : Nat) (t : String) (p : Props) (c : List VTree),
        [VTree.node "span" [] []][i]? = some (VTree.node t p c) →
        ch2[i]? = some (VTree.node t p c) :=
  C2_reconcile_preserves_tag_nodes "div" [] [VTree.node "span" [] []]
    (VTree.node "div" [] [VTree.node "span" [] []])
    (by simp [reconcile, reconcileChildren, reconChild, pure, Except.pure,
      Bind.bind, Except.bind])

/-- C9: every `createElement` child argument whose `typeof` is not
`object` is wrapped into a text-node virtual node whose `nodeValue`
property carries the raw child value; in particular
`createElement` applied to tag `div`, a `className` property `x` and the
string child `hello` yields a node of
kind `div` with the `className` property preserved and exactly one
text-node child with node value `hello`. -/
theorem C9_nonobject_child_wrapped :
    (∀ (ty : CEType) (props : Props) (args : List CEArg) (i : Nat) (p : Prim),
      args[i]? = some (.raw p) → jsTypeofPrim p ≠ "object" →
      (childrenOf (createElement ty props args))[i]? = some (textNode p)) ∧
    createElement (.tag "div") [("className", .prim (.str "x"))]
        [.raw (.str "hello")] =
      .node "div" [("className", .prim (.str "x"))]
        [.node "TEXT_NODE" [("nodeValue", .prim (.str "hello"))] []] := by
  constructor
  · intro ty props args i p hi hp
    have hch : childrenOf (createElement ty props args) =
        args.map normalizeChild := by
      cases ty <;> rfl
    rw [hch, List.getElem?_map, hi]
    simp [normalizeChild, hp]
  · rfl

/-- Witness for C9 at a numeric child argument. -/
theorem C9_nonobject_child_wrapped_witness :
    (childrenOf (createElement (.tag "div") [] [.raw (.num 5)]))[0]? =
      some (textNode (.num 5)) ∧
    createElement (.tag "div") [("className", .prim (.str "x"))]
        [.raw (.str "hello")] =
      .node "div" [("className", .prim (.str "x"))]
        [.node "TEXT_NODE" [("nodeValue", .prim (.str "hello"))] []] :=
  ⟨C9_nonobject_child_wrapped.1 (.tag "div") [] [.raw (.num 5)] 0 (.num 5)
    rfl (by decide),
   C9_nonobject_child_wrapped.2⟩

theorem filter_filter_comm (l : List String) (p q : String → Bool) :
    List.filter p (List.filter q l) = List.filter (fun a => q a && p a) l := by
  rw [List.filter_filter]
  exact List.filter_congr (fun a _ => Bool.and_comm _ _)

/-- C8: for every pair of previous/next property sets, the trace of
operations `updateDom` performs is exactly the concatenation, in this
order, of the four phases of the claim: remove listeners that are
absent or changed in the next set, clear plain properties absent from
the next set, apply plain properties that are new or changed, and
attach listeners that are new or changed. -/
theorem C8_updateDom_phase_order (prev next : Props) :
    updateDomOps prev next =
      specPhaseRemoveListeners prev next ++ specPhaseClearProps prev next ++
      specPhaseSetProps prev next ++ specPhaseAddListeners prev next := by
  rw [updateDomOps, specPhaseRemoveListeners, specPhaseClearProps,
    specPhaseSetProps, specPhaseAddListeners,
    filter_filter_comm, filter_filter_comm, filter_filter_comm,
    filter_filter_comm]
  simp only [isNew, isGone]

/-- C6 counterexample: materializing an absent (`undefined`) resolved
node does not fall back to an empty container — the `fiber === null`
guard does not match `undefined`, and the following
`typeof fiber.type` property access raises a TypeError. -/
theorem C6_counterexample_undefined_input_errors :
    createDom .undefc = .error () := by
  simp [createDom]

/-- C6 (amended): materializing a `null` resolved node returns a
generic empty container `div` element instead of failing, but
materializing an absent (`undefined`) resolved node raises an error —
only the `null` case is guarded. -/
theorem C6_null_fallback_undefined_throws :
    createDom .nullc = .ok (.delem "div" [] []) ∧
    createDom .undefc = .error () := by
  constructor
  · simp [createDom, pure, Except.pure]
  · simp [createDom]
